import Mathlib

/-!
Shallow embedding of the Bestiary frontend mutation layer
(src/ui/src/apollo/mutations.js and the duplicate module src/unnamed/part_000)
together with spec-modelled fragments of the external backend that the
repository only calls into.

A GraphQL mutation document produced by the gql template literal is modelled
by its parsed content: operation name, variable definitions (each with a base
type and a non-null marker), the mutated field with its argument bindings, and
the selection set (every document in this module selects at most two levels,
so selections are a list of top-level fields with their subfields).

JavaScript values handed to the wrappers are modelled by an inductive JSValue
covering undefined, null, strings, numbers, booleans and plain objects.
Property access follows JavaScript: on an object it yields the stored value
or undefined for an absent key, on a primitive base it yields undefined, and
on null or undefined it raises a TypeError. The fallible access getE keeps
that raise; the total access get collapses it to undefined and serves the
statement-level model, while the wrappers in the Js namespace evaluate their
property reads through getE in source order, so the raise happens before the
client is ever reached. The Apollo client handle is modelled by the one
method the code uses: a function from mutate options to an arbitrary result
type.
-/

namespace Bestiary

/-- A JavaScript value as the mutation wrappers see it. -/
inductive JSValue where
  | undefined : JSValue
  | null : JSValue
  | str : String → JSValue
  | num : Int → JSValue
  | bool : Bool → JSValue
  | obj : List (String × JSValue) → JSValue
deriving Repr

/-- The error JavaScript raises on property access with a null or undefined
base. -/
structure TypeError where
  message : String
deriving Repr, DecidableEq

/-- Property access `v.k` with JavaScript semantics: a stored value or
undefined on an object, undefined on a primitive base, and a raised
TypeError on a null or undefined base. -/
def JSValue.getE : JSValue → String → Except TypeError JSValue
  | .null, k =>
      Except.error ⟨"Cannot read properties of null (reading " ++ k ++ ")"⟩
  | .undefined, k =>
      Except.error ⟨"Cannot read properties of undefined (reading " ++ k ++ ")"⟩
  | .obj fields, k =>
      match fields.find? (fun p => p.1 == k) with
      | some p => Except.ok p.2
      | none => Except.ok .undefined
  | _, _ => Except.ok .undefined

/-- Total property access used by the statement-level model: property access
wherever JavaScript access succeeds, with the TypeError of a null or
undefined base collapsed to undefined; the wrappers in the Js namespace keep
that raise explicit. -/
def JSValue.get (v : JSValue) (k : String) : JSValue :=
  match v.getE k with
  | .ok r => r
  | .error _ => .undefined

/-- One variable definition in a mutation document, e.g. `$name: String!`. -/
structure VarDef where
  name : String
  type : String
  nonNull : Bool
deriving Repr, DecidableEq

/-- A parsed GraphQL mutation document as built by the gql literals. -/
structure GqlDoc where
  opName : String
  varDefs : List VarDef
  fieldName : String
  fieldArgs : List (String × String)
  selections : List (String × List String)
deriving Repr, DecidableEq

/-- The argument object handed to `apollo.mutate`. -/
structure MutateOptions where
  mutation : GqlDoc
  vars : List (String × JSValue)
deriving Repr

namespace Mutations

/-- The ADD_PROJECT document of src/ui/src/apollo/mutations.js. -/
def ADD_PROJECT : GqlDoc :=
  { opName := "addProject"
  , varDefs :=
      [ ⟨"ecosystemId", "ID", false⟩
      , ⟨"name", "String", false⟩
      , ⟨"title", "String", false⟩
      , ⟨"parentId", "ID", false⟩ ]
  , fieldName := "addProject"
  , fieldArgs :=
      [ ("ecosystemId", "ecosystemId")
      , ("name", "name")
      , ("title", "title")
      , ("parentId", "parentId") ]
  , selections := [("project", ["id", "name"])] }

/-- The DELETE_PROJECT document of src/ui/src/apollo/mutations.js. -/
def DELETE_PROJECT : GqlDoc :=
  { opName := "deleteProject"
  , varDefs := [⟨"id", "ID", false⟩]
  , fieldName := "deleteProject"
  , fieldArgs := [("id", "id")]
  , selections := [("project", ["id"])] }

/-- The MOVE_PROJECT document of src/ui/src/apollo/mutations.js. -/
def MOVE_PROJECT : GqlDoc :=
  { opName := "moveProject"
  , varDefs := [⟨"fromProjectId", "ID", false⟩, ⟨"toProjectId", "ID", false⟩]
  , fieldName := "moveProject"
  , fieldArgs := [("fromProjectId", "fromProjectId"), ("toProjectId", "toProjectId")]
  , selections := [("project", ["id", "name"])] }

/-- The UPDATE_PROJECT document of src/ui/src/apollo/mutations.js. -/
def UPDATE_PROJECT : GqlDoc :=
  { opName := "updateProject"
  , varDefs := [⟨"data", "ProjectInputType", false⟩, ⟨"id", "ID", false⟩]
  , fieldName := "updateProject"
  , fieldArgs := [("data", "data"), ("id", "id")]
  , selections := [("project", ["id", "name"])] }

/-- The ADD_ECOSYSTEM document of src/ui/src/apollo/mutations.js. -/
def ADD_ECOSYSTEM : GqlDoc :=
  { opName := "addEcosystem"
  , varDefs :=
      [ ⟨"name", "String", true⟩
      , ⟨"title", "String", false⟩
      , ⟨"description", "String", false⟩ ]
  , fieldName := "addEcosystem"
  , fieldArgs := [("name", "name"), ("title", "title"), ("description", "description")]
  , selections := [("ecosystem", ["id"])] }

/-- The UPDATE_ECOSYSTEM document of src/ui/src/apollo/mutations.js. -/
def UPDATE_ECOSYSTEM : GqlDoc :=
  { opName := "updateEcosystem"
  , varDefs := [⟨"data", "EcosystemInputType", false⟩, ⟨"id", "ID", false⟩]
  , fieldName := "updateEcosystem"
  , fieldArgs := [("data", "data"), ("id", "id")]
  , selections := [("ecosystem", ["id"])] }

/-- The DELETE_ECOSYSTEM document of src/ui/src/apollo/mutations.js. -/
def DELETE_ECOSYSTEM : GqlDoc :=
  { opName := "deleteEcosystem"
  , varDefs := [⟨"id", "ID", true⟩]
  , fieldName := "deleteEcosystem"
  , fieldArgs := [("id", "id")]
  , selections := [("ecosystem", ["id"])] }

/-- The TOKEN_AUTH document of src/ui/src/apollo/mutations.js. -/
def TOKEN_AUTH : GqlDoc :=
  { opName := "tokenAuth"
  , varDefs := [⟨"username", "String", true⟩, ⟨"password", "String", true⟩]
  , fieldName := "tokenAuth"
  , fieldArgs := [("username", "username"), ("password", "password")]
  , selections := [("token", [])] }

/-- addProject wrapper of src/ui/src/apollo/mutations.js. -/
def addProject {R : Type} (mutate : MutateOptions → R) (data : JSValue) : R :=
  let response := mutate
    { mutation := ADD_PROJECT
    , vars :=
        [ ("ecosystemId", data.get "ecosystemId")
        , ("name", data.get "name")
        , ("title", data.get "title")
        , ("parentId", data.get "parentId") ] }
  response

/-- deleteProject wrapper of src/ui/src/apollo/mutations.js. -/
def deleteProject {R : Type} (mutate : MutateOptions → R) (id : JSValue) : R :=
  let response := mutate
    { mutation := DELETE_PROJECT
    , vars := [("id", id)] }
  response

/-- moveProject wrapper of src/ui/src/apollo/mutations.js. -/
def moveProject {R : Type} (mutate : MutateOptions → R)
    (fromProjectId toProjectId : JSValue) : R :=
  let response := mutate
    { mutation := MOVE_PROJECT
    , vars := [("fromProjectId", fromProjectId), ("toProjectId", toProjectId)] }
  response

/-- updateProject wrapper of src/ui/src/apollo/mutations.js. -/
def updateProject {R : Type} (mutate : MutateOptions → R) (data id : JSValue) : R :=
  let response := mutate
    { mutation := UPDATE_PROJECT
    , vars := [("data", data), ("id", id)] }
  response

/-- addEcosystem wrapper of src/ui/src/apollo/mutations.js. -/
def addEcosystem {R : Type} (mutate : MutateOptions → R) (data : JSValue) : R :=
  let response := mutate
    { mutation := ADD_ECOSYSTEM
    , vars :=
        [ ("name", data.get "name")
        , ("title", data.get "title")
        , ("description", data.get "description") ] }
  response

/-- updateEcosystem wrapper of src/ui/src/apollo/mutations.js. -/
def updateEcosystem {R : Type} (mutate : MutateOptions → R) (data id : JSValue) : R :=
  let response := mutate
    { mutation := UPDATE_ECOSYSTEM
    , vars := [("data", data), ("id", id)] }
  response

/-- deleteEcosystem wrapper of src/ui/src/apollo/mutations.js. -/
def deleteEcosystem {R : Type} (mutate : MutateOptions → R) (id : JSValue) : R :=
  let response := mutate
    { mutation := DELETE_ECOSYSTEM
    , vars := [("id", id)] }
  response

/-- tokenAuth wrapper of src/ui/src/apollo/mutations.js. -/
def tokenAuth {R : Type} (mutate : MutateOptions → R) (username password : JSValue) : R :=
  let response := mutate
    { mutation := TOKEN_AUTH
    , vars := [("username", username), ("password", password)] }
  response

/-- The options addProject hands to the client, as a function of its input. -/
def addProjectOptions (data : JSValue) : MutateOptions :=
  { mutation := ADD_PROJECT
  , vars :=
      [ ("ecosystemId", data.get "ecosystemId")
      , ("name", data.get "name")
      , ("title", data.get "title")
      , ("parentId", data.get "parentId") ] }

/-- The options deleteProject hands to the client. -/
def deleteProjectOptions (id : JSValue) : MutateOptions :=
  { mutation := DELETE_PROJECT, vars := [("id", id)] }

/-- The options moveProject hands to the client. -/
def moveProjectOptions (fromProjectId toProjectId : JSValue) : MutateOptions :=
  { mutation := MOVE_PROJECT
  , vars := [("fromProjectId", fromProjectId), ("toProjectId", toProjectId)] }

/-- The options updateProject hands to the client. -/
def updateProjectOptions (data id : JSValue) : MutateOptions :=
  { mutation := UPDATE_PROJECT, vars := [("data", data), ("id", id)] }

/-- The options addEcosystem hands to the client. -/
def addEcosystemOptions (data : JSValue) : MutateOptions :=
  { mutation := ADD_ECOSYSTEM
  , vars :=
      [ ("name", data.get "name")
      , ("title", data.get "title")
      , ("description", data.get "description") ] }

/-- The options updateEcosystem hands to the client. -/
def updateEcosystemOptions (data id : JSValue) : MutateOptions :=
  { mutation := UPDATE_ECOSYSTEM, vars := [("data", data), ("id", id)] }

/-- The options deleteEcosystem hands to the client. -/
def deleteEcosystemOptions (id : JSValue) : MutateOptions :=
  { mutation := DELETE_ECOSYSTEM, vars := [("id", id)] }

/-- The options tokenAuth hands to the client. -/
def tokenAuthOptions (username password : JSValue) : MutateOptions :=
  { mutation := TOKEN_AUTH, vars := [("username", username), ("password", password)] }

end Mutations

namespace Js

open Mutations

/-- addProject of src/ui/src/apollo/mutations.js under JavaScript evaluation
semantics: the four property reads of data happen in source order before
mutate is reached, and a read on null or undefined data raises instead. -/
def addProject {R : Type} (mutate : MutateOptions → R) (data : JSValue) :
    Except TypeError R := do
  let ecosystemId ← data.getE "ecosystemId"
  let name ← data.getE "name"
  let title ← data.getE "title"
  let parentId ← data.getE "parentId"
  return mutate
    { mutation := ADD_PROJECT
    , vars :=
        [ ("ecosystemId", ecosystemId)
        , ("name", name)
        , ("title", title)
        , ("parentId", parentId) ] }

/-- deleteProject under JavaScript evaluation semantics: it reads no
property of an argument, so nothing can raise. -/
def deleteProject {R : Type} (mutate : MutateOptions → R) (id : JSValue) :
    Except TypeError R :=
  Except.ok (mutate { mutation := DELETE_PROJECT, vars := [("id", id)] })

/-- moveProject under JavaScript evaluation semantics: it reads no property
of an argument, so nothing can raise. -/
def moveProject {R : Type} (mutate : MutateOptions → R)
    (fromProjectId toProjectId : JSValue) : Except TypeError R :=
  Except.ok (mutate
    { mutation := MOVE_PROJECT
    , vars := [("fromProjectId", fromProjectId), ("toProjectId", toProjectId)] })

/-- updateProject under JavaScript evaluation semantics: it reads no
property of an argument, so nothing can raise. -/
def updateProject {R : Type} (mutate : MutateOptions → R) (data id : JSValue) :
    Except TypeError R :=
  Except.ok (mutate { mutation := UPDATE_PROJECT, vars := [("data", data), ("id", id)] })

/-- addEcosystem under JavaScript evaluation semantics: the three property
reads of data happen in source order before mutate is reached, and a read on
null or undefined data raises instead. -/
def addEcosystem {R : Type} (mutate : MutateOptions → R) (data : JSValue) :
    Except TypeError R := do
  let name ← data.getE "name"
  let title ← data.getE "title"
  let description ← data.getE "description"
  return mutate
    { mutation := ADD_ECOSYSTEM
    , vars := [("name", name), ("title", title), ("description", description)] }

/-- updateEcosystem under JavaScript evaluation semantics: it reads no
property of an argument, so nothing can raise. -/
def updateEcosystem {R : Type} (mutate : MutateOptions → R) (data id : JSValue) :
    Except TypeError R :=
  Except.ok (mutate { mutation := UPDATE_ECOSYSTEM, vars := [("data", data), ("id", id)] })

/-- deleteEcosystem under JavaScript evaluation semantics: it reads no
property of an argument, so nothing can raise. -/
def deleteEcosystem {R : Type} (mutate : MutateOptions → R) (id : JSValue) :
    Except TypeError R :=
  Except.ok (mutate { mutation := DELETE_ECOSYSTEM, vars := [("id", id)] })

/-- tokenAuth under JavaScript evaluation semantics: it reads no property of
an argument, so nothing can raise. -/
def tokenAuth {R : Type} (mutate : MutateOptions → R) (username password : JSValue) :
    Except TypeError R :=
  Except.ok (mutate
    { mutation := TOKEN_AUTH
    , vars := [("username", username), ("password", password)] })

end Js

namespace Part000

/-- The ADD_PROJECT document of src/unnamed/part_000. -/
def ADD_PROJECT : GqlDoc :=
  { opName := "addProject"
  , varDefs :=
      [ ⟨"ecosystemId", "ID", false⟩
      , ⟨"name", "String", false⟩
      , ⟨"title", "String", false⟩
      , ⟨"parentId", "ID", false⟩ ]
  , fieldName := "addProject"
  , fieldArgs :=
      [ ("ecosystemId", "ecosystemId")
      , ("name", "name")
      , ("title", "title")
      , ("parentId", "parentId") ]
  , selections := [("project", ["id", "name"])] }

/-- The DELETE_PROJECT document of src/unnamed/part_000. -/
def DELETE_PROJECT : GqlDoc :=
  { opName := "deleteProject"
  , varDefs := [⟨"id", "ID", false⟩]
  , fieldName := "deleteProject"
  , fieldArgs := [("id", "id")]
  , selections := [("project", ["id"])] }

/-- The MOVE_PROJECT document of src/unnamed/part_000. -/
def MOVE_PROJECT : GqlDoc :=
  { opName := "moveProject"
  , varDefs := [⟨"fromProjectId", "ID", false⟩, ⟨"toProjectId", "ID", false⟩]
  , fieldName := "moveProject"
  , fieldArgs := [("fromProjectId", "fromProjectId"), ("toProjectId", "toProjectId")]
  , selections := [("project", ["id", "name"])] }

/-- The UPDATE_PROJECT document of src/unnamed/part_000. -/
def UPDATE_PROJECT : GqlDoc :=
  { opName := "updateProject"
  , varDefs := [⟨"data", "ProjectInputType", false⟩, ⟨"id", "ID", false⟩]
  , fieldName := "updateProject"
  , fieldArgs := [("data", "data"), ("id", "id")]
  , selections := [("project", ["id", "name"])] }

/-- addProject wrapper of src/unnamed/part_000. -/
def addProject {R : Type} (mutate : MutateOptions → R) (data : JSValue) : R :=
  let response := mutate
    { mutation := ADD_PROJECT
    , vars :=
        [ ("ecosystemId", data.get "ecosystemId")
        , ("name", data.get "name")
        , ("title", data.get "title")
        , ("parentId", data.get "parentId") ] }
  response

/-- deleteProject wrapper of src/unnamed/part_000. -/
def deleteProject {R : Type} (mutate : MutateOptions → R) (id : JSValue) : R :=
  let response := mutate
    { mutation := DELETE_PROJECT
    , vars := [("id", id)] }
  response

/-- moveProject wrapper of src/unnamed/part_000. -/
def moveProject {R : Type} (mutate : MutateOptions → R)
    (fromProjectId toProjectId : JSValue) : R :=
  let response := mutate
    { mutation := MOVE_PROJECT
    , vars := [("fromProjectId", fromProjectId), ("toProjectId", toProjectId)] }
  response

/-- updateProject wrapper of src/unnamed/part_000. -/
def updateProject {R : Type} (mutate : MutateOptions → R) (data id : JSValue) : R :=
  let response := mutate
    { mutation := UPDATE_PROJECT
    , vars := [("data", data), ("id", id)] }
  response

end Part000

namespace Backend

/-- A GraphQL-level error payload returned by the backend. -/
structure GqlError where
  message : String
deriving Repr, DecidableEq

/-- Modelled from the spec: the backend credential store consulted by the
external JWT library behind tokenAuth (section 4.2; the resolver itself is
not under src/). A finite association of usernames to passwords. -/
structure CredentialStore where
  creds : List (String × String)
deriving Repr, DecidableEq

/-- Modelled from the spec: credentials are valid when the store associates
exactly this password with this username. -/
def CredentialStore.valid (db : CredentialStore) (username password : String) : Bool :=
  db.creds.any (fun p => p.1 == username && p.2 == password)

/-- Modelled from the spec: the opaque signed token issued for a username
(section 3, AuthToken: an opaque signed token associated with a username).
Its exact shape belongs to the external library; the model makes it a
nonempty signed string mentioning the username. -/
def issueToken (username : String) : String :=
  "jwt." ++ username ++ ".signed"

/-- Modelled from the spec: the tokenAuth resolver (section 4.2): takes
username/password, returns a token on success, an error otherwise. -/
def tokenAuthResolver (db : CredentialStore) (username password : String) :
    Except GqlError String :=
  if db.valid username password then
    Except.ok (issueToken username)
  else
    Except.error ⟨"Please enter valid credentials"⟩

/-- A stored project row (section 3 data model). -/
structure Project where
  id : String
  name : String
  title : String
  parentId : Option String
  ecosystemId : String
deriving Repr, DecidableEq

/-- Modelled from the spec: the moveProject resolver (sections 3 and 8):
re-parents the project identified by fromProjectId under toProjectId and
touches nothing else. -/
def moveProjectResolver (projects : List Project) (fromProjectId toProjectId : String) :
    List Project :=
  projects.map (fun p =>
    if p.id == fromProjectId then { p with parentId := some toProjectId } else p)

/-- Modelled from the spec: a backend endpoint serving the tokenAuth
mutation (section 4.2; the resolver layer is external to src/): it reads the
username and password variables of the request and delegates to the
resolver. -/
def tokenAuthClient (db : CredentialStore) (o : MutateOptions) :
    Except GqlError String :=
  if o.mutation.opName == "tokenAuth" then
    match o.vars.find? (fun q => q.1 == "username"),
          o.vars.find? (fun q => q.1 == "password") with
    | some (_, .str u), some (_, .str p) => tokenAuthResolver db u p
    | _, _ => Except.error ⟨"Malformed variables"⟩
  else Except.error ⟨"Unknown mutation"⟩

end Backend

/-- A client that records the options of each call it receives. -/
def traceClient : MutateOptions → List MutateOptions := fun o => [o]

section Claims

open Mutations

/-- C1: each of the eight mutation wrappers invokes the mutate method of the
client with exactly the documented mutation document (operation name,
argument bindings and selection) and exactly the documented variable set,
drawn from the corresponding wrapper arguments: addProject sends the
addProject mutation with variables ecosystemId, name, title and parentId read
from its data argument and selects project with id and name; tokenAuth sends
the tokenAuth mutation with variables username and password and selects
token; the other six behave accordingly. -/
theorem wrappers_send_documented_mutation_and_variables :
    (∀ (R : Type) (mutate : MutateOptions → R) (data : JSValue),
      addProject mutate data = mutate
        { mutation := ADD_PROJECT
        , vars :=
            [ ("ecosystemId", data.get "ecosystemId")
            , ("name", data.get "name")
            , ("title", data.get "title")
            , ("parentId", data.get "parentId") ] }) ∧
    (∀ (R : Type) (mutate : MutateOptions → R) (id : JSValue),
      deleteProject mutate id = mutate
        { mutation := DELETE_PROJECT, vars := [("id", id)] }) ∧
    (∀ (R : Type) (mutate : MutateOptions → R) (f t : JSValue),
      moveProject mutate f t = mutate
        { mutation := MOVE_PROJECT
        , vars := [("fromProjectId", f), ("toProjectId", t)] }) ∧
    (∀ (R : Type) (mutate : MutateOptions → R) (data id : JSValue),
      updateProject mutate data id = mutate
        { mutation := UPDATE_PROJECT, vars := [("data", data), ("id", id)] }) ∧
    (∀ (R : Type) (mutate : MutateOptions → R) (data : JSValue),
      addEcosystem mutate data = mutate
        { mutation := ADD_ECOSYSTEM
        , vars :=
            [ ("name", data.get "name")
            , ("title", data.get "title")
            , ("description", data.get "description") ] }) ∧
    (∀ (R : Type) (mutate : MutateOptions → R) (data id : JSValue),
      updateEcosystem mutate data id = mutate
        { mutation := UPDATE_ECOSYSTEM, vars := [("data", data), ("id", id)] }) ∧
    (∀ (R : Type) (mutate : MutateOptions → R) (id : JSValue),
      deleteEcosystem mutate id = mutate
        { mutation := DELETE_ECOSYSTEM, vars := [("id", id)] }) ∧
    (∀ (R : Type) (mutate : MutateOptions → R) (u p : JSValue),
      tokenAuth mutate u p = mutate
        { mutation := TOKEN_AUTH, vars := [("username", u), ("password", p)] }) ∧
    ADD_PROJECT.opName = "addProject" ∧
    ADD_PROJECT.fieldName = "addProject" ∧
    ADD_PROJECT.selections = [("project", ["id", "name"])] ∧
    DELETE_PROJECT.opName = "deleteProject" ∧
    MOVE_PROJECT.opName = "moveProject" ∧
    UPDATE_PROJECT.opName = "updateProject" ∧
    ADD_ECOSYSTEM.opName = "addEcosystem" ∧
    UPDATE_ECOSYSTEM.opName = "updateEcosystem" ∧
    DELETE_ECOSYSTEM.opName = "deleteEcosystem" ∧
    TOKEN_AUTH.opName = "tokenAuth" ∧
    TOKEN_AUTH.fieldName = "tokenAuth" ∧
    TOKEN_AUTH.selections = [("token", [])] :=
  ⟨fun _ _ _ => rfl, fun _ _ _ => rfl, fun _ _ _ _ => rfl, fun _ _ _ _ => rfl,
   fun _ _ _ => rfl, fun _ _ _ _ => rfl, fun _ _ _ => rfl, fun _ _ _ _ => rfl,
   rfl, rfl, rfl, rfl, rfl, rfl, rfl, rfl, rfl, rfl, rfl, rfl⟩

/-- C5: non-null markers in the constructed documents sit exactly where the
interface list writes an exclamation mark: addEcosystem declares name as
String! with title and description optional and selects only ecosystem with
id; deleteEcosystem declares id as ID!; every variable of the four project
mutations, including the id of deleteProject, is declared nullable. -/
theorem documents_mark_nonnull_exactly_as_documented :
    ADD_ECOSYSTEM.varDefs =
      [ ⟨"name", "String", true⟩
      , ⟨"title", "String", false⟩
      , ⟨"description", "String", false⟩ ] ∧
    ADD_ECOSYSTEM.selections = [("ecosystem", ["id"])] ∧
    DELETE_ECOSYSTEM.varDefs = [⟨"id", "ID", true⟩] ∧
    (ADD_PROJECT.varDefs ++ DELETE_PROJECT.varDefs ++
      MOVE_PROJECT.varDefs ++ UPDATE_PROJECT.varDefs).all
        (fun v => !v.nonNull) = true :=
  ⟨rfl, rfl, rfl, rfl⟩

/-- C7: each wrapper factors through a single application of the mutate
method of the client, uniformly in the result type and the client: its whole
behaviour is that one call on the options built from its arguments, with no
second call and no effect besides it (the embedding is pure, so the data
argument and all other state are untouched). -/
theorem wrappers_perform_exactly_one_mutate_call :
    ∀ (R : Type) (mutate : MutateOptions → R),
      (∀ data, addProject mutate data = mutate (addProjectOptions data)) ∧
      (∀ id, deleteProject mutate id = mutate (deleteProjectOptions id)) ∧
      (∀ f t, moveProject mutate f t = mutate (moveProjectOptions f t)) ∧
      (∀ data id, updateProject mutate data id = mutate (updateProjectOptions data id)) ∧
      (∀ data, addEcosystem mutate data = mutate (addEcosystemOptions data)) ∧
      (∀ data id, updateEcosystem mutate data id = mutate (updateEcosystemOptions data id)) ∧
      (∀ id, deleteEcosystem mutate id = mutate (deleteEcosystemOptions id)) ∧
      (∀ u p, tokenAuth mutate u p = mutate (tokenAuthOptions u p)) :=
  fun _ _ =>
    ⟨fun _ => rfl, fun _ => rfl, fun _ _ => rfl, fun _ _ => rfl,
     fun _ => rfl, fun _ _ => rfl, fun _ => rfl, fun _ _ => rfl⟩

/-- C8: the four project wrappers of src/unnamed/part_000 are extensionally
equal to the identically named wrappers of src/ui/src/apollo/mutations.js:
their documents coincide and, for every client and every input, they invoke
mutate with the same options and return its result. -/
theorem part000_wrappers_equal_mutations_wrappers :
    Part000.ADD_PROJECT = ADD_PROJECT ∧
    Part000.DELETE_PROJECT = DELETE_PROJECT ∧
    Part000.MOVE_PROJECT = MOVE_PROJECT ∧
    Part000.UPDATE_PROJECT = UPDATE_PROJECT ∧
    (∀ (R : Type) (mutate : MutateOptions → R) (data : JSValue),
      Part000.addProject mutate data = addProject mutate data) ∧
    (∀ (R : Type) (mutate : MutateOptions → R) (id : JSValue),
      Part000.deleteProject mutate id = deleteProject mutate id) ∧
    (∀ (R : Type) (mutate : MutateOptions → R) (f t : JSValue),
      Part000.moveProject mutate f t = moveProject mutate f t) ∧
    (∀ (R : Type) (mutate : MutateOptions → R) (data id : JSValue),
      Part000.updateProject mutate data id = updateProject mutate data id) :=
  ⟨rfl, rfl, rfl, rfl,
   fun _ _ _ => rfl, fun _ _ _ => rfl, fun _ _ _ _ => rfl, fun _ _ _ _ => rfl⟩

/-- C2: each wrapper returns the value of its single mutate call unmodified:
no transformation of the result, no retry and no error translation, so an
error produced by the client or backend propagates to the caller unchanged
as the rejected result of that same call. -/
theorem wrapper_results_and_errors_pass_through_unmodified :
    ∀ (A : Type) (mutate : MutateOptions → Except Backend.GqlError A),
      (∀ data, addProject mutate data = mutate (addProjectOptions data) ∧
        ∀ e, mutate (addProjectOptions data) = Except.error e →
          addProject mutate data = Except.error e) ∧
      (∀ id, deleteProject mutate id = mutate (deleteProjectOptions id) ∧
        ∀ e, mutate (deleteProjectOptions id) = Except.error e →
          deleteProject mutate id = Except.error e) ∧
      (∀ f t, moveProject mutate f t = mutate (moveProjectOptions f t) ∧
        ∀ e, mutate (moveProjectOptions f t) = Except.error e →
          moveProject mutate f t = Except.error e) ∧
      (∀ data id, updateProject mutate data id = mutate (updateProjectOptions data id) ∧
        ∀ e, mutate (updateProjectOptions data id) = Except.error e →
          updateProject mutate data id = Except.error e) ∧
      (∀ data, addEcosystem mutate data = mutate (addEcosystemOptions data) ∧
        ∀ e, mutate (addEcosystemOptions data) = Except.error e →
          addEcosystem mutate data = Except.error e) ∧
      (∀ data id, updateEcosystem mutate data id = mutate (updateEcosystemOptions data id) ∧
        ∀ e, mutate (updateEcosystemOptions data id) = Except.error e →
          updateEcosystem mutate data id = Except.error e) ∧
      (∀ id, deleteEcosystem mutate id = mutate (deleteEcosystemOptions id) ∧
        ∀ e, mutate (deleteEcosystemOptions id) = Except.error e →
          deleteEcosystem mutate id = Except.error e) ∧
      (∀ u p, tokenAuth mutate u p = mutate (tokenAuthOptions u p) ∧
        ∀ e, mutate (tokenAuthOptions u p) = Except.error e →
          tokenAuth mutate u p = Except.error e) :=
  fun _ _ =>
    ⟨fun _ => ⟨rfl, fun _ h => h⟩, fun _ => ⟨rfl, fun _ h => h⟩,
     fun _ _ => ⟨rfl, fun _ h => h⟩, fun _ _ => ⟨rfl, fun _ h => h⟩,
     fun _ => ⟨rfl, fun _ h => h⟩, fun _ _ => ⟨rfl, fun _ h => h⟩,
     fun _ => ⟨rfl, fun _ h => h⟩, fun _ _ => ⟨rfl, fun _ h => h⟩⟩

/-- C2 witness: a client that rejects every request makes tokenAuth return
exactly that rejection. -/
theorem wrapper_results_and_errors_pass_through_unmodified_witness :
    tokenAuth
        (fun _ => (Except.error ⟨"bad credentials"⟩ : Except Backend.GqlError Unit))
        (.str "admin") (.str "wrong") = Except.error ⟨"bad credentials"⟩ :=
  (((wrapper_results_and_errors_pass_through_unmodified Unit
      (fun _ => Except.error ⟨"bad credentials"⟩)).2.2.2.2.2.2.2
      (.str "admin") (.str "wrong")).2 ⟨"bad credentials"⟩ rfl)

/-- Helper: away from a null or undefined base, the fallible JavaScript
property access succeeds and agrees with the total access. -/
theorem JSValue.getE_ok_of_ne_null (d : JSValue) (h1 : d ≠ JSValue.null)
    (h2 : d ≠ JSValue.undefined) (k : String) :
    d.getE k = Except.ok (d.get k) := by
  cases d with
  | null => exact absurd rfl h1
  | undefined => exact absurd rfl h2
  | str s => rfl
  | num n => rfl
  | bool b => rfl
  | obj fields =>
      simp only [JSValue.getE, JSValue.get]
      cases fields.find? (fun p => p.1 == k) <;> rfl

/-- C6 counterexample: under JavaScript evaluation semantics, addProject at
null data raises the TypeError of reading ecosystemId on null instead of
returning any call trace; the trace client can only produce lists, so the
error originates in the wrapper itself and mutate is never reached,
refuting the claim that every input still yields the network call with no
client-side error. -/
theorem addProject_at_null_raises_type_error :
    Js.addProject traceClient JSValue.null =
      Except.error ⟨"Cannot read properties of null (reading ecosystemId)"⟩ := rfl

/-- C6 amended: no wrapper validates its inputs client-side: the six
wrappers that read no property of their arguments perform the network call
and raise nothing for every input, and addProject and addEcosystem do so
for every data other than null and undefined, absent or malformed fields
included; on null or undefined data those two raise the JavaScript
TypeError of their first property access and make no call, a thrown access
rather than a validation check, so any constraint violation is still
reported only via the result of the mutate call. -/
theorem no_client_side_validation_off_null_data :
    (∀ (R : Type) (mutate : MutateOptions → R),
      (∀ id, Js.deleteProject mutate id = Except.ok (mutate (deleteProjectOptions id))) ∧
      (∀ f t, Js.moveProject mutate f t = Except.ok (mutate (moveProjectOptions f t))) ∧
      (∀ data id, Js.updateProject mutate data id =
        Except.ok (mutate (updateProjectOptions data id))) ∧
      (∀ data id, Js.updateEcosystem mutate data id =
        Except.ok (mutate (updateEcosystemOptions data id))) ∧
      (∀ id, Js.deleteEcosystem mutate id = Except.ok (mutate (deleteEcosystemOptions id))) ∧
      (∀ u p, Js.tokenAuth mutate u p = Except.ok (mutate (tokenAuthOptions u p)))) ∧
    (∀ (R : Type) (mutate : MutateOptions → R) (data : JSValue),
      data ≠ JSValue.null → data ≠ JSValue.undefined →
      Js.addProject mutate data = Except.ok (mutate (addProjectOptions data)) ∧
      Js.addEcosystem mutate data = Except.ok (mutate (addEcosystemOptions data))) ∧
    Js.addProject traceClient JSValue.undefined =
      Except.error ⟨"Cannot read properties of undefined (reading ecosystemId)"⟩ ∧
    Js.addEcosystem traceClient JSValue.null =
      Except.error ⟨"Cannot read properties of null (reading name)"⟩ ∧
    Js.addEcosystem traceClient JSValue.undefined =
      Except.error ⟨"Cannot read properties of undefined (reading name)"⟩ := by
  refine ⟨fun R m => ⟨fun _ => rfl, fun _ _ => rfl, fun _ _ => rfl, fun _ _ => rfl,
    fun _ => rfl, fun _ _ => rfl⟩, ?_, rfl, rfl, rfl⟩
  intro R m data h1 h2
  constructor
  · simp only [Js.addProject, JSValue.getE_ok_of_ne_null data h1 h2]
    rfl
  · simp only [Js.addEcosystem, JSValue.getE_ok_of_ne_null data h1 h2]
    rfl

/-- C6 witness: an object data argument with an absent ecosystemId and a
junk-free single field still produces exactly the one documented call, and
so does tokenAuth on arbitrary credential values. -/
theorem no_client_side_validation_off_null_data_witness :
    Js.addProject traceClient (JSValue.obj [("name", JSValue.str "p")]) =
      Except.ok [addProjectOptions (JSValue.obj [("name", JSValue.str "p")])] ∧
    Js.tokenAuth traceClient (JSValue.str "u") (JSValue.str "pw") =
      Except.ok [tokenAuthOptions (JSValue.str "u") (JSValue.str "pw")] :=
  ⟨(no_client_side_validation_off_null_data.2.1 (List MutateOptions) traceClient
      (JSValue.obj [("name", JSValue.str "p")])
      (fun h => nomatch h) (fun h => nomatch h)).1,
   (no_client_side_validation_off_null_data.1 (List MutateOptions) traceClient).2.2.2.2.2
      (JSValue.str "u") (JSValue.str "pw")⟩

/-- C9: addProject reads only the properties ecosystemId, name, title and
parentId of its data argument, and addEcosystem reads only name, title and
description: two data objects agreeing on those keys produce identical
options, and the variable set never carries any other property. -/
theorem wrappers_read_only_documented_data_fields :
    (∀ d1 d2 : JSValue,
      d1.get "ecosystemId" = d2.get "ecosystemId" →
      d1.get "name" = d2.get "name" →
      d1.get "title" = d2.get "title" →
      d1.get "parentId" = d2.get "parentId" →
      addProjectOptions d1 = addProjectOptions d2) ∧
    (∀ d1 d2 : JSValue,
      d1.get "name" = d2.get "name" →
      d1.get "title" = d2.get "title" →
      d1.get "description" = d2.get "description" →
      addEcosystemOptions d1 = addEcosystemOptions d2) ∧
    (∀ d : JSValue, (addProjectOptions d).vars.map Prod.fst =
      ["ecosystemId", "name", "title", "parentId"]) ∧
    (∀ d : JSValue, (addEcosystemOptions d).vars.map Prod.fst =
      ["name", "title", "description"]) :=
  ⟨by intro d1 d2 h1 h2 h3 h4; simp only [addProjectOptions, h1, h2, h3, h4],
   by intro d1 d2 h1 h2 h3; simp only [addEcosystemOptions, h1, h2, h3],
   fun _ => rfl, fun _ => rfl⟩

/-- C9 witness: an extra junk property on data changes nothing in the
options addProject and addEcosystem build. -/
theorem wrappers_read_only_documented_data_fields_witness :
    addProjectOptions (.obj [("name", .str "p"), ("extra", .num 7)]) =
      addProjectOptions (.obj [("name", .str "p")]) ∧
    addEcosystemOptions (.obj [("name", .str "e"), ("junk", .bool true)]) =
      addEcosystemOptions (.obj [("name", .str "e")]) :=
  ⟨wrappers_read_only_documented_data_fields.1
      (.obj [("name", .str "p"), ("extra", .num 7)]) (.obj [("name", .str "p")])
      rfl rfl rfl rfl,
   wrappers_read_only_documented_data_fields.2.1
      (.obj [("name", .str "e"), ("junk", .bool true)]) (.obj [("name", .str "e")])
      rfl rfl rfl⟩

/-- C10: each wrapper is deterministic in what it sends: two calls of the
same wrapper with equal arguments hand the client equal documents and equal
variable bindings, which depend on nothing but the arguments; in particular
tokenAuth forwards username and password verbatim under the TOKEN_AUTH
document and reads no other state. -/
theorem wrappers_deterministic_and_tokenAuth_forwards_verbatim :
    (∀ u p : JSValue,
      (tokenAuthOptions u p).mutation = TOKEN_AUTH ∧
      (tokenAuthOptions u p).vars = [("username", u), ("password", p)]) ∧
    (∀ (R : Type) (mutate : MutateOptions → R) (u p : JSValue),
      tokenAuth mutate u p = mutate (tokenAuthOptions u p)) ∧
    (∀ d1 d2 : JSValue, d1 = d2 →
      addProject traceClient d1 = addProject traceClient d2) ∧
    (∀ i1 i2 : JSValue, i1 = i2 →
      deleteProject traceClient i1 = deleteProject traceClient i2) ∧
    (∀ f1 t1 f2 t2 : JSValue, f1 = f2 → t1 = t2 →
      moveProject traceClient f1 t1 = moveProject traceClient f2 t2) ∧
    (∀ d1 i1 d2 i2 : JSValue, d1 = d2 → i1 = i2 →
      updateProject traceClient d1 i1 = updateProject traceClient d2 i2) ∧
    (∀ d1 d2 : JSValue, d1 = d2 →
      addEcosystem traceClient d1 = addEcosystem traceClient d2) ∧
    (∀ d1 i1 d2 i2 : JSValue, d1 = d2 → i1 = i2 →
      updateEcosystem traceClient d1 i1 = updateEcosystem traceClient d2 i2) ∧
    (∀ i1 i2 : JSValue, i1 = i2 →
      deleteEcosystem traceClient i1 = deleteEcosystem traceClient i2) ∧
    (∀ u1 p1 u2 p2 : JSValue, u1 = u2 → p1 = p2 →
      tokenAuth traceClient u1 p1 = tokenAuth traceClient u2 p2) := by
  refine ⟨fun u p => ⟨rfl, rfl⟩, fun R m u p => rfl,
    ?_, ?_, ?_, ?_, ?_, ?_, ?_, ?_⟩ <;> intros <;> subst_vars <;> rfl

/-- C10 witness: two tokenAuth calls with the same credentials hand the
client the same request. -/
theorem wrappers_deterministic_and_tokenAuth_forwards_verbatim_witness :
    tokenAuth traceClient (.str "alice") (.str "pw") =
      tokenAuth traceClient (.str "alice") (.str "pw") :=
  wrappers_deterministic_and_tokenAuth_forwards_verbatim.2.2.2.2.2.2.2.2.2
    (.str "alice") (.str "pw") (.str "alice") (.str "pw") rfl rfl

/-- C3: through the spec-modelled backend, tokenAuth with valid credentials
returns a well-formed (nonempty) token string; with invalid credentials it
returns an error and not a token. -/
theorem tokenAuth_valid_token_invalid_error
    (db : Backend.CredentialStore) (u p : String) :
    (db.valid u p = true →
      tokenAuth (Backend.tokenAuthClient db) (.str u) (.str p) =
        Except.ok (Backend.issueToken u) ∧
      0 < (Backend.issueToken u).length) ∧
    (db.valid u p = false →
      tokenAuth (Backend.tokenAuthClient db) (.str u) (.str p) =
        Except.error ⟨"Please enter valid credentials"⟩) := by
  have hred : tokenAuth (Backend.tokenAuthClient db) (.str u) (.str p) =
      Backend.tokenAuthResolver db u p := rfl
  constructor
  · intro h
    refine ⟨?_, ?_⟩
    · rw [hred]; simp [Backend.tokenAuthResolver, h]
    · have h4 : ("jwt." : String).length = 4 := rfl
      simp [Backend.issueToken, String.length_append, h4]
  · intro h
    rw [hred]; simp [Backend.tokenAuthResolver, h]

/-- C3 witness: with the store holding admin/1234, valid credentials yield
the issued token and wrong credentials yield the error. -/
theorem tokenAuth_valid_token_invalid_error_witness :
    tokenAuth (Backend.tokenAuthClient ⟨[("admin", "1234")]⟩)
        (.str "admin") (.str "1234") = Except.ok (Backend.issueToken "admin") ∧
    tokenAuth (Backend.tokenAuthClient ⟨[("admin", "1234")]⟩)
        (.str "admin") (.str "wrong") =
      Except.error ⟨"Please enter valid credentials"⟩ :=
  ⟨((tokenAuth_valid_token_invalid_error ⟨[("admin", "1234")]⟩ "admin" "1234").1
      (by decide)).1,
   (tokenAuth_valid_token_invalid_error ⟨[("admin", "1234")]⟩ "admin" "wrong").2
      (by decide)⟩

/-- C4: the spec-modelled moveProject resolver alters nothing but the parent
relation of the moved project: the project list keeps its length, every
project keeps its id, name, title and ecosystemId, and every project other
than the moved one keeps its parentId. -/
theorem moveProject_alters_only_parent_relation
    (projects : List Backend.Project) (f t : String) :
    (Backend.moveProjectResolver projects f t).length = projects.length ∧
    ∀ (i : Nat) (h : i < projects.length)
      (h2 : i < (Backend.moveProjectResolver projects f t).length),
      ((Backend.moveProjectResolver projects f t).get ⟨i, h2⟩).id =
        (projects.get ⟨i, h⟩).id ∧
      ((Backend.moveProjectResolver projects f t).get ⟨i, h2⟩).name =
        (projects.get ⟨i, h⟩).name ∧
      ((Backend.moveProjectResolver projects f t).get ⟨i, h2⟩).title =
        (projects.get ⟨i, h⟩).title ∧
      ((Backend.moveProjectResolver projects f t).get ⟨i, h2⟩).ecosystemId =
        (projects.get ⟨i, h⟩).ecosystemId ∧
      ((projects.get ⟨i, h⟩).id ≠ f →
        ((Backend.moveProjectResolver projects f t).get ⟨i, h2⟩).parentId =
          (projects.get ⟨i, h⟩).parentId) := by
  constructor
  · simp [Backend.moveProjectResolver]
  · intro i h h2
    simp only [Backend.moveProjectResolver, List.get_eq_getElem, List.getElem_map]
    by_cases hc : projects[i].id = f
    · simp [hc]
    · simp [hc]

/-- C4 witness: moving p1 under p2 leaves the second project of a two-item
store with its original parentId. -/
theorem moveProject_alters_only_parent_relation_witness :
    ((Backend.moveProjectResolver
        [⟨"p1", "n1", "t1", none, "e1"⟩, ⟨"p2", "n2", "t2", none, "e1"⟩]
        "p1" "p2").get ⟨1, by decide⟩).parentId =
      (([⟨"p1", "n1", "t1", none, "e1"⟩, ⟨"p2", "n2", "t2", none, "e1"⟩] :
        List Backend.Project).get ⟨1, by decide⟩).parentId :=
  ((moveProject_alters_only_parent_relation
      [⟨"p1", "n1", "t1", none, "e1"⟩, ⟨"p2", "n2", "t2", none, "e1"⟩]
      "p1" "p2").2 1 (by decide) (by decide)).2.2.2.2 (by decide)

end Claims

end Bestiary
